import Mathlib

/-!
# gosuv command-line client (`gosuv.go`)

A shallow embedding of the client side of gosuv: the daemon bootstrap
(`testConnection`), the dispatcher (`wrap`), the command handlers
(`ActionStatus`, `ActionAdd`, `ActionStart`, `ActionStop`, `ActionTail`,
`ActionVersion`, `ActionShutdown`), the command table with plugin discovery
(`initCli`) and the plugin launcher (`runPlugin`).

Everything the program does to the outside is recorded as an `Event` in a
trace; everything the outside answers is read from a `World`.
Diagnostics written through `log.Debugf` are not part of the trace.
-/

namespace Gosuv

/-! ## Values -/

/-- Go `error` values that are not nil.  `ErrGoTimeout` is the sentinel the
program compares against, `EOF` is `io.EOF`, every other error value is
`other` with its `Error()` text. -/
inductive GoError
  | ErrGoTimeout
  | EOF
  | other (text : String)
  deriving DecidableEq

/-- Fields of `exec.Cmd` the program sets: the name and arguments handed to
`exec.Command`, the working directory, the environment and, for each standard
stream, whether it is the stream of the invoking process. -/
structure Cmd where
  Path : String
  Args : List String
  Dir : String := ""
  Env : List String := []
  Stdout : Bool := false
  Stderr : Bool := false
  Stdin : Bool := false
  deriving DecidableEq

/-- Message `pb.ProgramStatus`. -/
structure ProgramStatus where
  Name : String
  Status : String
  Extra : String
  deriving DecidableEq

/-- Message `pb.ProgramInfo`, the request of `Create`. -/
structure ProgramInfo where
  Name : String
  Directory : String
  Command : List String
  Environ : List String
  deriving DecidableEq

/-- Message `pb.TailRequest`. -/
structure TailRequest where
  Name : String
  Number : Int
  Follow : Bool
  deriving DecidableEq

/-- Remote calls issued by the client. -/
inductive RpcCall
  | Status
  | Create (req : ProgramInfo)
  | Start (name : String)
  | Stop (name : String)
  | Tail (req : TailRequest)
  | Shutdown
  | Version
  deriving DecidableEq

/-- A server stream of log lines as the client sees it: the lines delivered,
then the error `Recv` reports from then on (`EOF` at the regular end). -/
structure TailStream where
  lines : List String
  stop : GoError
  deriving DecidableEq

/-- An entry of a directory listing (`os.FileInfo`). -/
structure FileInfo where
  Name : String
  IsDir : Bool
  deriving DecidableEq

/-- The parsed invocation (`*cli.Context`). -/
structure Context where
  GlobalString : String → String
  GlobalBool : String → Bool
  FlagString : String → String
  FlagStringSlice : String → List String
  FlagInt : String → Int
  FlagBool : String → Bool
  Args : List String

/-! ## Effects -/

/-- What the client does to the outside, in order. -/
inductive Event
  /-- Probe `net.DialTimeout network address timeout` (milliseconds). -/
  | dial (network address : String) (timeoutMs : Nat)
  /-- Closing the probe connection. -/
  | probeClose
  /-- Running a command under `GoTimeoutFunc` with a timer (milliseconds). -/
  | spawn (cmd : Cmd) (timeoutMs : Nat)
  /-- A call of `grpcDial`; `conn` numbers the connections of the invocation. -/
  | grpcDial (network addr : String) (conn : Nat)
  /-- Closing a connection (`conn.Close()`). -/
  | connClose (conn : Nat)
  /-- A remote call issued through a client backed by connection `conn`. -/
  | call (conn : Nat) (rpc : RpcCall)
  /-- One `Recv` on a stream of connection `conn`. -/
  | recv (conn : Nat)
  /-- A plain `cmd.Run()`. -/
  | run (cmd : Cmd)
  /-- Text written to standard output. -/
  | stdout (text : String)
  deriving DecidableEq

/-- Ways a Go function stops without returning. -/
inductive Halt
  /-- The call `log.Fatal`: the report, then exit status 1. -/
  | fatal (report : String)
  /-- The call `os.Exit`. -/
  | exit (code : Nat)
  /-- A run-time panic. -/
  | panic (text : String)
  deriving DecidableEq

/-- State of one invocation: the trace so far and the number of `grpcDial`
calls made. -/
structure Sys where
  trace : List Event := []
  dials : Nat := 0
  deriving DecidableEq

/-- Result of running a piece of the program. -/
inductive Res (α : Type)
  | ok (a : α) (s : Sys)
  | halt (h : Halt) (s : Sys)

/-- The state after a run, however it ended. -/
def Res.sys {α : Type} : Res α → Sys
  | .ok _ s => s
  | .halt _ s => s

/-- The returned value, when the run returned. -/
def Res.value {α : Type} : Res α → Option α
  | .ok a _ => some a
  | .halt _ _ => none

/-- The way the run stopped, when it did not return. -/
def Res.halted {α : Type} : Res α → Option Halt
  | .ok _ _ => none
  | .halt h _ => some h

/-- A piece of the program: a state transformer that returns or halts. -/
def Go (α : Type) : Type := Sys → Res α

/-- Sequencing: a halt skips the rest. -/
def Go.bind {α β : Type} (m : Go α) (f : α → Go β) : Go β := fun s =>
  match m s with
  | .ok a s1 => f a s1
  | .halt h s1 => .halt h s1

instance : Monad Go where
  pure a := fun s => .ok a s
  bind := Go.bind

/-- The function `strings.Contains file "/"`. -/
def containsSlash (file : String) : Bool := file.data.contains '/'

/-- The function `filepath.IsAbs` on Unix. -/
def IsAbs (path : String) : Bool :=
  match path.data with
  | c :: _ => c == '/'
  | [] => false

/-- Everything outside the client: process start-up data, the file system,
the standard library calls whose result depends on them, and the daemon. -/
structure World where
  /-- The value of `os.Args[0]`. -/
  Args0 : String
  /-- The value of `os.Environ()`. -/
  Environ : List String
  /-- The function `os.ExpandEnv`. -/
  ExpandEnv : String → String
  /-- The value of `rcfg.Server.RpcAddr`. -/
  RpcAddr : String
  /-- The text `ErrGoTimeout.Error()`. -/
  errGoTimeoutText : String
  /-- The function `filepath.Join`. -/
  Join : List String → String
  /-- The function `filepath.Abs`: path and error. -/
  Abs : String → String × Option GoError
  /-- The function `os.Getwd`: directory and error. -/
  Getwd : String × Option GoError
  /-- Whether a path names an executable file (`findExecutable` succeeds). -/
  isExecutable : String → Bool
  /-- The error `exec.LookPath` reports for a name with a slash that is not an
  executable file. -/
  lookPathErr : String → GoError
  /-- The search of `exec.LookPath` through `$PATH` for a name without a
  slash: the path found, or the error reported. -/
  LookPathSearch : String → Except GoError String
  /-- A path found through `$PATH` is absolute: `exec.LookPath` reports a hit
  through an empty or relative entry as the error `ErrDot`. -/
  LookPathSearch_abs : ∀ file path, LookPathSearch file = .ok path → IsAbs path = true
  /-- The function `ioutil.ReadDir`. -/
  ReadDir : String → Except GoError (List FileInfo)
  /-- The error of `net.DialTimeout network address timeout`, nil on success. -/
  DialTimeout : String → String → Nat → Option GoError
  /-- The value received from `GoTimeoutFunc timeout cmd.Run`: `ErrGoTimeout`
  when the timer elapses first, otherwise what `cmd.Run` returned. -/
  GoTimeoutRun : Nat → Cmd → Option GoError
  /-- The error of the n-th `grpc.Dial` of the invocation, nil on success. -/
  grpcDialErr : Nat → Option GoError
  /-- Rendering of an error with the verb `%#v`. -/
  fmtSharpV : GoError → String
  /-- The daemon loop `RunGosuvService addr`. -/
  RunGosuvService : String → Go Unit
  Status : Except GoError (List ProgramStatus)
  Create : ProgramInfo → Except GoError String
  Start : String → Except GoError String
  Stop : String → Except GoError String
  Tail : TailRequest → Except GoError TailStream
  Shutdown : Except GoError String
  Version : Except GoError String

/-- The method `Error()` of an error value. -/
def GoError.Error (w : World) : GoError → String
  | .ErrGoTimeout => w.errGoTimeoutText
  | .EOF => "EOF"
  | .other text => text

/-- Rendering of an `error` with the verb `%v`. -/
def fmtV (w : World) : Option GoError → String
  | none => "<nil>"
  | some e => e.Error w

/-- Append an event to the trace. -/
def emit (e : Event) : Go Unit := fun s => .ok () { s with trace := s.trace ++ [e] }

/-- Stop without returning. -/
def stop {α : Type} (h : Halt) : Go α := fun s => .halt h s

/-- The call `log.Fatal(err)` for an error value. -/
def logFatal {α : Type} (w : World) (err : GoError) : Go α := stop (.fatal (err.Error w))

/-- The call `fmt.Println(s)`. -/
def Println (s : String) : Go Unit := emit (.stdout (s ++ "\n"))

/-- The statement `defer cleanup` around the rest of a function body: the
cleanup runs when the body returns or panics, not when the process exits. -/
def withDefer {α : Type} (cleanup : Go Unit) (body : Go α) : Go α := fun s =>
  match body s with
  | .ok a s1 =>
    match cleanup s1 with
    | .ok _ s2 => .ok a s2
    | .halt h s2 => .halt h s2
  | .halt (.panic text) s1 =>
    match cleanup s1 with
    | .ok _ s2 => .halt (.panic text) s2
    | .halt h s2 => .halt h s2
  | .halt h s1 => .halt h s1

/-! ## Package variables -/

/-- The variable `GOSUV_HOME`. -/
def GOSUV_HOME (w : World) : String := w.ExpandEnv "$HOME/.gosuv"

/-- The variable `GOSUV_SOCK_PATH`. -/
def GOSUV_SOCK_PATH (w : World) : String := w.Join [GOSUV_HOME w, "gosuv.sock"]

/-- The variable `CMDPLUGIN_DIR`. -/
def CMDPLUGIN_DIR (w : World) : String := w.Join [GOSUV_HOME w, "cmdplugin"]

/-- The constant `GOSUV_VERSION`. -/
def GOSUV_VERSION : String := "0.0.3"

/-! ## Bootstrap and dispatch -/

/-- The call `net.DialTimeout`: records the probe, yields its error. -/
def netDialTimeout (w : World) (network address : String) (ms : Nat) : Go (Option GoError) :=
  fun s => .ok (w.DialTimeout network address ms) { s with trace := s.trace ++ [.dial network address ms] }

/-- Modelled from the spec: `GoTimeoutFunc` and `ErrGoTimeout` are declared
outside `gosuv.go`.  The receive `<-GoTimeoutFunc(timeout, cmd.Run)` starts the
command and races its end against the timer; it yields what the command
returned if that comes first and `ErrGoTimeout` if the timer does.  Which of
the two happens is read from the world. -/
def GoTimeoutFunc (w : World) (ms : Nat) (cmd : Cmd) : Go (Option GoError) :=
  fun s => .ok (w.GoTimeoutRun ms cmd) { s with trace := s.trace ++ [.spawn cmd ms] }

/-- The function `exec.Command`: `Path` is the name as given and `Args` the
name followed by the arguments.  The later resolution of a name without a
path separator through `exec.LookPath` is left out. -/
def execCommand (name : String) (args : List String) : Cmd :=
  { Path := name, Args := name :: args }

/-- The function `testConnection`. -/
def testConnection (w : World) (network address : String) : Go (Option GoError) := do
  let err ← netDialTimeout w network address 100
  match err with
  | some _ =>
    let cmd := execCommand w.Args0 ["serv"]
    let timeout := 500
    let er ← GoTimeoutFunc w timeout cmd
    if er = some GoError.ErrGoTimeout then
      Println "server started"
      pure none
    else
      pure (some (GoError.other ("server stared failed, " ++ fmtV w er)))
  | none =>
    emit .probeClose
    pure none

/-- A client made by `pb.NewProgramClient conn`. -/
structure ProgramClient where
  conn : Nat
  deriving DecidableEq

/-- A client made by `pb.NewGoSuvClient conn`. -/
structure GoSuvClient where
  conn : Nat
  deriving DecidableEq

/-- The function `grpcDial`: records the call under the next connection
number, yields the connection or the dial error. -/
def grpcDial (w : World) (network addr : String) : Go (Except GoError Nat) := fun s =>
  let s1 : Sys := { trace := s.trace ++ [.grpcDial network addr s.dials], dials := s.dials + 1 }
  match w.grpcDialErr s.dials with
  | none => .ok (.ok s.dials) s1
  | some e => .ok (.error e) s1

/-- The function `connect`. -/
def connect (w : World) (_ctx : Context) : Go (Except GoError Nat) :=
  grpcDial w "unix" (GOSUV_SOCK_PATH w)

/-- A function handed to `wrap`, by the parameter types `inject` resolves. -/
inductive Handler
  | ofCtx (f : Context → Go Unit)
  | ofGoSuv (f : GoSuvClient → Go Unit)
  | ofCtxGoSuv (f : Context → GoSuvClient → Go Unit)
  | ofCtxProgram (f : Context → ProgramClient → Go Unit)

/-- The call `inj.Invoke f` after the three `inj.Map` calls of `wrap`. -/
def Invoke (programClient : ProgramClient) (gosuvClient : GoSuvClient) (ctx : Context) :
    Handler → Go Unit
  | .ofCtx f => f ctx
  | .ofGoSuv f => f gosuvClient
  | .ofCtxGoSuv f => f ctx gosuvClient
  | .ofCtxProgram f => f ctx programClient

/-- The function `wrap`.  The switch of the log level on the `debug` flag
only affects diagnostics and is left out. -/
def wrap (w : World) (f : Handler) : Context → Go Unit := fun ctx => do
  let err ← testConnection w "unix" (GOSUV_SOCK_PATH w)
  (match err with
  | some err => logFatal w err
  | none => pure ())
  let conn ← connect w ctx
  match conn with
  | .error err => logFatal w err
  | .ok conn =>
    withDefer (emit (.connClose conn)) do
      let programClient : ProgramClient := { conn := conn }
      let gosuvClient : GoSuvClient := { conn := conn }
      Invoke programClient gosuvClient ctx f

/-- The function `ServAction`. -/
def ServAction (w : World) (ctx : Context) : Go Unit :=
  let addr := ctx.GlobalString "addr"
  w.RunGosuvService addr

/-! ## Handlers -/

/-- Run a loop body for each element of a slice, in order. -/
def forRange {α : Type} (body : α → Go Unit) : List α → Go Unit
  | [] => pure ()
  | x :: xs => do
    body x
    forRange body xs

/-- The verb `%-Ns`: the string, then blanks up to a width of N characters. -/
def padRight (width : Nat) (s : String) : String :=
  s ++ String.mk (List.replicate (width - s.length) ' ')

/-- The text of `fmt.Printf("%-10s\t%-8s\t%s\n", name, status, extra)`. -/
def statusLine (ps : ProgramStatus) : String :=
  padRight 10 ps.Name ++ "\t" ++ padRight 8 ps.Status ++ "\t" ++ ps.Extra ++ "\n"

/-- The function `ActionStatus`. -/
def ActionStatus (w : World) (client : GoSuvClient) : Go Unit := do
  emit (.call client.conn .Status)
  match w.Status with
  | .error err => logFatal w err
  | .ok programs => forRange (fun ps => emit (.stdout (statusLine ps))) programs

/-- The method `Args.First` of the cli package. -/
def First (args : List String) : String :=
  match args with
  | [] => ""
  | a :: _ => a

/-- The method `Args.Tail` of the cli package. -/
def Tail (args : List String) : List String :=
  if args.length ≥ 2 then args.drop 1 else []

/-- The function `exec.LookPath` on Unix: a name with a slash is tried as it
is and returned unchanged when it is an executable file; any other name is
searched in `$PATH`. -/
def LookPath (w : World) (file : String) : Except GoError String :=
  if containsSlash file then
    if w.isExecutable file then .ok file else .error (w.lookPathErr file)
  else
    w.LookPathSearch file

/-- The function `ActionAdd`.  The value assigned to `name` from
`filepath.Base` is never read; only the indexing `ctx.Args()[0]` matters. -/
def ActionAdd (w : World) (ctx : Context) (client : GoSuvClient) : Go Unit := do
  let name := ctx.FlagString "name"
  (if name = "" then
    match ctx.Args with
    | [] => stop (.panic "index out of range")
    | _ :: _ => pure ()
  else
    pure ())
  let dir := w.Getwd.1
  (if ctx.Args.length < 1 then
    stop (.fatal "need at least one args")
  else
    pure ())
  let cmdName := First ctx.Args
  match LookPath w cmdName with
  | .error err => logFatal w err
  | .ok cmdPath =>
    let req : ProgramInfo :=
      { Name := ctx.FlagString "name"
        Directory := dir
        Command := [cmdPath] ++ Tail ctx.Args
        Environ := ctx.FlagStringSlice "env" }
    emit (.call client.conn (.Create req))
    match w.Create req with
    | .error err => logFatal w err
    | .ok message => Println message

/-- The function `Errorf` called as `Errorf("ERR: %#v\n", err)`. -/
def Errorf {α : Type} (w : World) (err : GoError) : Go α := do
  emit (.stdout ("ERR: " ++ w.fmtSharpV err ++ "\n"))
  stop (.exit 1)

/-- The function `ActionStop`. -/
def ActionStop (w : World) (ctx : Context) : Go Unit := do
  match ← connect w ctx with
  | .error err => logFatal w err
  | .ok conn =>
    withDefer (emit (.connClose conn)) do
      let name := First ctx.Args
      let client : ProgramClient := { conn := conn }
      emit (.call client.conn (.Stop name))
      match w.Stop name with
      | .error err => Errorf w err
      | .ok message => Println message

/-- The function `ActionStart`. -/
def ActionStart (w : World) (ctx : Context) : Go Unit := do
  match ← connect w ctx with
  | .error err => logFatal w err
  | .ok conn =>
    withDefer (emit (.connClose conn)) do
      let name := First ctx.Args
      let client : ProgramClient := { conn := conn }
      emit (.call client.conn (.Start name))
      match w.Start name with
      | .error err => Errorf w err
      | .ok message => Println message

/-- The conversion `int32(n)` of a Go `int`. -/
def int32 (n : Int) : Int := (n + 2147483648) % 4294967296 - 2147483648

/-- The method `Recv` of a tail stream: the next line, or the final error. -/
def Recv (conn : Nat) (t : TailStream) : Go (Except GoError String × TailStream) := do
  emit (.recv conn)
  match t.lines with
  | line :: rest => pure (.ok line, { t with lines := rest })
  | [] => pure (.error t.stop, t)

/-- The receive loop of `ActionTail`; `fuel` bounds the iterations. -/
def tailLoop (w : World) (conn : Nat) : Nat → TailStream → Go Unit
  | 0, _ => stop (.panic "tailLoop: no fuel left")
  | fuel + 1, tailc => do
    let (line, tailc) ← Recv conn tailc
    match line with
    | .error GoError.EOF => pure ()
    | .error err => logFatal w err
    | .ok text =>
      emit (.stdout text)
      tailLoop w conn fuel tailc

/-- The function `ActionTail`.  The loop gets one iteration per line of the
stream and one for its end. -/
def ActionTail (w : World) (ctx : Context) (client : ProgramClient) : Go Unit := do
  let req : TailRequest :=
    { Name := First ctx.Args
      Number := int32 (ctx.FlagInt "number")
      Follow := ctx.FlagBool "follow" }
  emit (.call client.conn (.Tail req))
  match w.Tail req with
  | .error err => logFatal w err
  | .ok tailc => tailLoop w client.conn (tailc.lines.length + 1) tailc

/-- The function `ActionShutdown`. -/
def ActionShutdown (w : World) (ctx : Context) : Go Unit := do
  match ← connect w ctx with
  | .error _ => Println "server already closed"
  | .ok conn =>
    withDefer (emit (.connClose conn)) do
      let client : GoSuvClient := { conn := conn }
      emit (.call client.conn .Shutdown)
      match w.Shutdown with
      | .error err => logFatal w err
      | .ok message => Println message

/-- The function `ActionVersion`. -/
def ActionVersion (w : World) (_ctx : Context) (client : GoSuvClient) : Go Unit := do
  emit (.stdout ("Client: " ++ GOSUV_VERSION ++ "\n"))
  emit (.call client.conn .Version)
  match w.Version with
  | .error err => logFatal w err
  | .ok message => emit (.stdout ("Server: " ++ message ++ "\n"))

/-! ## Command table and plugins -/

/-- Flag declarations of the cli package, with the fields the program sets. -/
inductive Flag
  | StringFlag (Name Value Usage EnvVar : String)
  | BoolFlag (Name Usage EnvVar : String)
  | StringSliceFlag (Name Usage : String)
  | IntFlag (Name : String) (Value : Int) (Usage : String)
  deriving DecidableEq

/-- A command of the table (`cli.Command`). -/
structure Command where
  Name : String
  Aliases : List String := []
  Usage : String
  Flags : List Flag := []
  Action : Context → Go Unit

/-- The application (`cli.App`), with the fields the program sets. -/
structure App where
  Version : String
  Name : String
  Usage : String
  HideHelp : Bool
  Flags : List Flag
  Commands : List Command

/-- The function `runPlugin`. -/
def runPlugin (w : World) (ctx : Context) (name : String) : Go Unit := do
  let pluginDir := w.Join [CMDPLUGIN_DIR w, name]
  let selfPath := (w.Abs w.Args0).1
  let envs := [
    "GOSUV_SERVER_ADDR=" ++ ctx.GlobalString "addr",
    "GOSUV_PLUGIN_NAME=" ++ name,
    "GOSUV_PROGRAM=" ++ selfPath ]
  let cmd := execCommand (w.Join [pluginDir, "run"]) ctx.Args
  let cmd := { cmd with Stdout := true }
  let cmd := { cmd with Stderr := true }
  let cmd := { cmd with Stdin := true }
  let cmd := { cmd with Dir := pluginDir }
  let cmd := { cmd with Env := w.Environ ++ envs }
  emit (.run cmd)

/-- The function `newPluginAction`. -/
def newPluginAction (w : World) (name : String) : Context → Go Unit :=
  fun ctx => runPlugin w ctx name

/-- The command literal of the plugin loop in `initCli`. -/
def pluginCommand (w : World) (cmdName : String) : Command :=
  { Name := cmdName
    Usage := "Plugin command"
    Action := newPluginAction w cmdName }

/-- The literal assigned to `app.Commands` in `initCli`. -/
def builtinCommands (w : World) : List Command := [
  { Name := "version"
    Usage := "Show version"
    Action := wrap w (.ofCtxGoSuv (ActionVersion w)) },
  { Name := "status"
    Aliases := ["st"]
    Usage := "show program status"
    Action := wrap w (.ofGoSuv (ActionStatus w)) },
  { Name := "add"
    Usage := "add to running list"
    Flags := [
      .StringFlag "name, n" "" "program name" "",
      .StringSliceFlag "env, e" "Specify environ" ]
    Action := wrap w (.ofCtxGoSuv (ActionAdd w)) },
  { Name := "start"
    Usage := "start a not running program"
    Action := wrap w (.ofCtx (ActionStart w)) },
  { Name := "stop"
    Usage := "Stop running program"
    Action := wrap w (.ofCtx (ActionStop w)) },
  { Name := "tail"
    Usage := "tail log"
    Action := wrap w (.ofCtxProgram (ActionTail w))
    Flags := [
      .IntFlag "number, n" 10 "The location is number lines.",
      .BoolFlag "follow, f" "Constantly show log" "" ] },
  { Name := "shutdown"
    Usage := "Shutdown server"
    Action := ActionShutdown w },
  { Name := "serv"
    Usage := "This command should only be called by gosuv itself"
    Action := ServAction w } ]

/-- The plugin loop of `initCli`: one `append` per entry that is a directory. -/
def appendPlugins (w : World) (app : App) : List FileInfo → App
  | [] => app
  | finfo :: finfos =>
    if !finfo.IsDir then
      appendPlugins w app finfos
    else
      let cmdName := finfo.Name
      appendPlugins w { app with Commands := app.Commands ++ [pluginCommand w cmdName] } finfos

/-- The function `initCli`, returning the application it builds. -/
def initCli (w : World) : App :=
  let app : App :=
    { Version := GOSUV_VERSION
      Name := "gosuv"
      Usage := "supervisor your program"
      HideHelp := true
      Flags := [
        .StringFlag "addr" w.RpcAddr "server address" "GOSUV_SERVER_ADDR",
        .BoolFlag "debug, d" "enable debug info" "GOSUV_DEBUG" ]
      Commands := builtinCommands w }
  match w.ReadDir (CMDPLUGIN_DIR w) with
  | .error _ => app
  | .ok finfos => appendPlugins w app finfos

/-! ## Observations on traces -/

/-- Whether an event starts an external process. -/
def Event.isExec : Event → Bool
  | .spawn _ _ => true
  | .run _ => true
  | _ => false

/-- Whether an event is a call of `grpcDial`. -/
def Event.isGrpcDial : Event → Bool
  | .grpcDial _ _ _ => true
  | _ => false

/-- The connection an event issues a remote call or a receive on, if any. -/
def Event.rpcConn : Event → Option Nat
  | .call conn _ => some conn
  | .recv conn => some conn
  | _ => none

/-- Number of process starts in a trace. -/
def countExec (tr : List Event) : Nat := tr.countP Event.isExec

/-- Number of `grpcDial` calls in a trace. -/
def countDial (tr : List Event) : Nat := tr.countP Event.isGrpcDial

/-- The connections the remote calls and receives of a trace go through. -/
def rpcConns (tr : List Event) : List Nat := tr.filterMap Event.rpcConn

/-- The remote calls of a trace, in order. -/
def rpcCalls (tr : List Event) : List RpcCall :=
  tr.filterMap fun e => match e with
    | .call _ rpc => some rpc
    | _ => none


/-- The texts written to standard output in a trace, one per write, in order. -/
def outputs (tr : List Event) : List String :=
  tr.filterMap fun e => match e with
    | .stdout text => some text
    | _ => none

/-- Everything a trace writes to standard output, as one text. -/
def stdoutText (tr : List Event) : String := String.join (outputs tr)

/-- The events of reading a tail stream to its end: a receive and a write per
line, then the receive that reports the end. -/
def tailEvents (conn : Nat) (lines : List String) : List Event :=
  lines.flatMap (fun line => [.recv conn, .stdout line]) ++ [.recv conn]

/-- The state at the start of an invocation. -/
def Sys.init : Sys := { trace := [], dials := 0 }

/-- Whether an event is a remote call or a receive on a connection other
than `conn`. -/
def Event.offConn (conn : Nat) (e : Event) : Bool :=
  match e.rpcConn with
  | some c => c != conn
  | none => false

/-- The names of the commands whose handler takes an injected client. -/
def injectedNames : List String := ["version", "status", "add", "tail"]

/-- The process starts of a trace, in order. -/
def execs (tr : List Event) : List Event := tr.filter Event.isExec

/-- The names of the commands `initCli` registers through `wrap`. -/
def wrappedNames : List String := ["version", "status", "add", "start", "stop", "tail"]

/-- A piece of the program adds no event of the kind `p` to the trace,
however it ends. -/
def Keeps {α : Type} (p : Event → Bool) (m : Go α) : Prop :=
  ∀ s : Sys, (m s).sys.trace.filter p = s.trace.filter p

/-! ## Example world -/

/-- A path join for the example world: the elements separated by slashes. -/
def exampleJoin (elems : List String) : String := String.intercalate "/" elems

/-- The `$PATH` search of the example world: `/usr/bin` holds `sleep`. -/
def exampleSearch (file : String) : Except GoError String :=
  if file = "sleep" then .ok "/usr/bin/sleep"
  else .error (.other ("exec: " ++ file ++ ": executable file not found in $PATH"))

/-- An example world: the daemon listens and answers every call; the plugin
root holds the directories `foo` and `bar` and the regular file `README`. -/
def exampleWorld : World :=
  { Args0 := "/usr/local/bin/gosuv"
    Environ := ["HOME=/home/u", "PATH=/usr/bin"]
    ExpandEnv := fun _ => "/home/u/.gosuv"
    RpcAddr := "127.0.0.1:54637"
    errGoTimeoutText := "GoTimeoutFunc"
    Join := exampleJoin
    Abs := fun path => (path, none)
    Getwd := ("/srv/app", none)
    isExecutable := fun path => path == "./server.py" || path == "/usr/bin/sleep"
    lookPathErr := fun file => .other ("exec: " ++ file ++ ": no such file or directory")
    LookPathSearch := exampleSearch
    LookPathSearch_abs := fun file path hfound => by
      unfold exampleSearch at hfound
      split at hfound
      · cases hfound; rfl
      · cases hfound
    ReadDir := fun _ => .ok [
      { Name := "README", IsDir := false },
      { Name := "bar", IsDir := true },
      { Name := "foo", IsDir := true } ]
    DialTimeout := fun _ _ _ => none
    GoTimeoutRun := fun _ _ => some .ErrGoTimeout
    grpcDialErr := fun _ => none
    fmtSharpV := fun e =>
      match e with
      | .ErrGoTimeout => "ErrGoTimeout"
      | .EOF => "EOF"
      | .other text => text
    RunGosuvService := fun _ => pure ()
    Status := .ok [
      { Name := "web", Status := "running", Extra := "pid 41" },
      { Name := "long-worker-name", Status := "stopped", Extra := "" } ]
    Create := fun req => .ok ("program " ++ req.Name ++ " created")
    Start := fun name => .ok (name ++ " started")
    Stop := fun name => .ok (name ++ " stopped")
    Tail := fun _ => .ok { lines := ["a\n", "b\n"], stop := .EOF }
    Shutdown := .ok "gosuv server shutdown"
    Version := .ok "0.0.3" }

/-- The example world with no daemon listening; the spawned daemon keeps
running past the bootstrap timer. -/
def coldWorld : World :=
  { exampleWorld with DialTimeout := fun _ _ _ => some (.other "connect: no such file or directory") }

/-- The example world with no daemon listening; the spawned daemon exits with
an error inside the bootstrap window. -/
def brokenWorld : World :=
  { coldWorld with GoTimeoutRun := fun _ _ => some (.other "exit status 1") }

/-- An invocation with the given positional arguments, no flags set, and the
default of the `number` flag. -/
def exampleCtx (args : List String) : Context :=
  { GlobalString := fun name => if name = "addr" then "127.0.0.1:54637" else ""
    GlobalBool := fun _ => false
    FlagString := fun _ => ""
    FlagStringSlice := fun _ => []
    FlagInt := fun name => if name = "number" then 10 else 0
    FlagBool := fun _ => false
    Args := args }

/-- The example world with a tail stream that breaks after one line. -/
def lossyWorld : World :=
  { exampleWorld with
    Tail := fun _ => .ok { lines := ["a\n"], stop := .other "rpc error: transport is closing" } }

/-- The invocation `add --name nap sleep 10`. -/
def sleepCtx : Context :=
  { exampleCtx ["sleep", "10"] with
    FlagString := fun name => if name = "name" then "nap" else "" }

/-- The invocation `add --name worker --env KEY=VAL -- ./server.py`. -/
def addCtx : Context :=
  { exampleCtx ["./server.py"] with
    FlagString := fun name => if name = "name" then "worker" else ""
    FlagStringSlice := fun name => if name = "env" then ["KEY=VAL"] else [] }

/-! ## Running the monad -/

@[simp] theorem bind_apply {α β : Type} (m : Go α) (f : α → Go β) (s : Sys) :
    (m >>= f) s = match m s with
      | .ok a s1 => f a s1
      | .halt h s1 => .halt h s1 := rfl

@[simp] theorem pure_apply {α : Type} (a : α) (s : Sys) : (pure a : Go α) s = .ok a s := rfl

@[simp] theorem emit_apply (e : Event) (s : Sys) :
    emit e s = .ok () { s with trace := s.trace ++ [e] } := rfl

@[simp] theorem stop_apply {α : Type} (h : Halt) (s : Sys) : (stop h : Go α) s = .halt h s := rfl

@[simp] theorem logFatal_apply {α : Type} (w : World) (err : GoError) (s : Sys) :
    (logFatal w err : Go α) s = .halt (.fatal (err.Error w)) s := rfl

@[simp] theorem Println_apply (text : String) (s : Sys) :
    Println text s = .ok () { s with trace := s.trace ++ [.stdout (text ++ "\n")] } := rfl

/-! ## Bootstrap -/

/-- With a listener, `testConnection` probes, closes the probe and succeeds. -/
theorem testConnection_reachable (w : World) (network address : String) (s : Sys)
    (hprobe : w.DialTimeout network address 100 = none) :
    testConnection w network address s
      = .ok none { s with trace := s.trace ++ [.dial network address 100, .probeClose] } := by
  simp [testConnection, netDialTimeout, hprobe]

/-- C1: when the probe fails and the race between the spawned daemon and the
500ms timer delivers `ErrGoTimeout`, `testConnection` returns nil, after one
probe, one spawn of `os.Args[0] serv` and the line `server started`. -/
theorem testConnection_timeout_is_success (w : World) (network address : String) (s : Sys)
    (hprobe : w.DialTimeout network address 100 ≠ none)
    (hrace : w.GoTimeoutRun 500 (execCommand w.Args0 ["serv"]) = some GoError.ErrGoTimeout) :
    testConnection w network address s
      = .ok none { s with trace := s.trace ++
          [.dial network address 100, .spawn (execCommand w.Args0 ["serv"]) 500,
           .stdout "server started\n"] } := by
  cases hd : w.DialTimeout network address 100 with
  | none => exact absurd hd hprobe
  | some e => simp [testConnection, netDialTimeout, GoTimeoutFunc, hd, hrace]

/-- The cold example world meets the conditions of C1 and the bootstrap returns nil. -/
theorem testConnection_timeout_is_success_witness :
    coldWorld.DialTimeout "unix" (GOSUV_SOCK_PATH coldWorld) 100 ≠ none ∧
    coldWorld.GoTimeoutRun 500 (execCommand coldWorld.Args0 ["serv"]) = some GoError.ErrGoTimeout ∧
    (testConnection coldWorld "unix" (GOSUV_SOCK_PATH coldWorld) Sys.init).value = some none :=
  ⟨by decide, by decide,
   by rw [testConnection_timeout_is_success coldWorld "unix" (GOSUV_SOCK_PATH coldWorld) Sys.init
        (by decide) (by decide)]; rfl⟩

/-- C2: when the probe fails and the race delivers an error other than
`ErrGoTimeout` (the daemon exited inside the bootstrap window),
`testConnection` returns a non-nil error that carries the daemon error. -/
theorem testConnection_daemon_exit_is_failure (w : World) (network address : String) (s : Sys)
    (e : GoError)
    (hprobe : w.DialTimeout network address 100 ≠ none)
    (hrace : w.GoTimeoutRun 500 (execCommand w.Args0 ["serv"]) = some e)
    (hne : e ≠ GoError.ErrGoTimeout) :
    (testConnection w network address s).value
        = some (some (GoError.other ("server stared failed, " ++ e.Error w))) ∧
      (testConnection w network address s).value ≠ some none := by
  cases hd : w.DialTimeout network address 100 with
  | none => exact absurd hd hprobe
  | some e0 => simp [testConnection, netDialTimeout, GoTimeoutFunc, hd, hrace, hne, Res.value, fmtV]

/-- The broken example world: the daemon exits with `exit status 1` and the bootstrap fails. -/
theorem testConnection_daemon_exit_is_failure_witness :
    (testConnection brokenWorld "unix" (GOSUV_SOCK_PATH brokenWorld) Sys.init).value
        = some (some (GoError.other "server stared failed, exit status 1")) ∧
      (testConnection brokenWorld "unix" (GOSUV_SOCK_PATH brokenWorld) Sys.init).value ≠ some none :=
  testConnection_daemon_exit_is_failure brokenWorld "unix" (GOSUV_SOCK_PATH brokenWorld) Sys.init
    (GoError.other "exit status 1") (by decide) (by decide) (by decide)

/-! ## Pieces that add no event of a kind -/

theorem Keeps.pure {α : Type} (p : Event → Bool) (a : α) : Keeps p (pure a : Go α) :=
  fun _ => rfl

theorem Keeps.stop {α : Type} (p : Event → Bool) (h : Halt) : Keeps p (stop h : Go α) :=
  fun _ => rfl

theorem Keeps.logFatal {α : Type} (p : Event → Bool) (w : World) (err : GoError) :
    Keeps p (logFatal w err : Go α) :=
  fun _ => rfl

theorem Keeps.emit (p : Event → Bool) (e : Event) (he : p e = false) : Keeps p (emit e) := by
  intro s
  simp [Res.sys, List.filter_append, he]

theorem Keeps.Println (p : Event → Bool) (text : String) (hp : ∀ t, p (.stdout t) = false) :
    Keeps p (Println text) :=
  Keeps.emit p _ (hp _)

theorem Keeps.bind {α β : Type} (p : Event → Bool) {m : Go α} {f : α → Go β}
    (hm : Keeps p m) (hf : ∀ a, Keeps p (f a)) : Keeps p (m >>= f) := by
  intro s
  have h1 := hm s
  rw [bind_apply]
  cases hr : m s with
  | ok a s1 =>
    rw [hr] at h1
    simpa [Res.sys, ← h1] using hf a s1
  | halt h s1 =>
    rw [hr] at h1
    simpa [Res.sys] using h1

theorem Keeps.withDefer {α : Type} (p : Event → Bool) {cleanup : Go Unit} {body : Go α}
    (hc : Keeps p cleanup) (hb : Keeps p body) : Keeps p (withDefer cleanup body) := by
  intro s
  have h1 := hb s
  unfold Gosuv.withDefer
  cases hr : body s with
  | ok a s1 =>
    rw [hr] at h1
    have h2 := hc s1
    cases hk : cleanup s1 with
    | ok u s2 => rw [hk] at h2; simp only [Res.sys] at h1 h2; simp only [hk, Res.sys]; rw [h2, h1]
    | halt h s2 => rw [hk] at h2; simp only [Res.sys] at h1 h2; simp only [hk, Res.sys]; rw [h2, h1]
  | halt h s1 =>
    rw [hr] at h1
    cases h with
    | panic text =>
      have h2 := hc s1
      cases hk : cleanup s1 with
      | ok u s2 => rw [hk] at h2; simp only [Res.sys] at h1 h2; simp only [hk, Res.sys]; rw [h2, h1]
      | halt h s2 => rw [hk] at h2; simp only [Res.sys] at h1 h2; simp only [hk, Res.sys]; rw [h2, h1]
    | fatal report => simpa [Res.sys] using h1
    | exit code => simpa [Res.sys] using h1

theorem Keeps.forRange {α : Type} (p : Event → Bool) (body : α → Go Unit)
    (hb : ∀ a, Keeps p (body a)) (xs : List α) : Keeps p (forRange body xs) := by
  induction xs with
  | nil => exact Keeps.pure p ()
  | cons x xs ih => exact Keeps.bind p (hb x) (fun _ => ih)

theorem ActionStatus_keeps (p : Event → Bool) (w : World) (client : GoSuvClient)
    (hcall : ∀ r, p (.call client.conn r) = false) (hout : ∀ t, p (.stdout t) = false) :
    Keeps p (ActionStatus w client) := by
  unfold ActionStatus
  refine Keeps.bind p (Keeps.emit p _ (hcall _)) (fun _ => ?_)
  cases w.Status with
  | error err => exact Keeps.logFatal p w err
  | ok programs => exact Keeps.forRange p _ (fun ps => Keeps.emit p _ (hout _)) programs

theorem ActionVersion_keeps (p : Event → Bool) (w : World) (ctx : Context) (client : GoSuvClient)
    (hcall : ∀ r, p (.call client.conn r) = false) (hout : ∀ t, p (.stdout t) = false) :
    Keeps p (ActionVersion w ctx client) := by
  unfold ActionVersion
  refine Keeps.bind p (Keeps.emit p _ (hout _)) (fun _ => ?_)
  refine Keeps.bind p (Keeps.emit p _ (hcall _)) (fun _ => ?_)
  cases w.Version with
  | error err => exact Keeps.logFatal p w err
  | ok message => exact Keeps.emit p _ (hout _)

theorem ActionAdd_keeps (p : Event → Bool) (w : World) (ctx : Context) (client : GoSuvClient)
    (hcall : ∀ r, p (.call client.conn r) = false) (hout : ∀ t, p (.stdout t) = false) :
    Keeps p (ActionAdd w ctx client) := by
  unfold ActionAdd
  refine Keeps.bind p ?_ (fun _ => Keeps.bind p ?_ (fun _ => ?_))
  · split
    · cases ctx.Args with
      | nil => exact Keeps.stop p _
      | cons a rest => exact Keeps.pure p _
    · exact Keeps.pure p _
  · split
    · exact Keeps.stop p _
    · exact Keeps.pure p _
  · dsimp only
    cases LookPath w (First ctx.Args) with
    | error err => exact Keeps.logFatal p w err
    | ok cmdPath =>
      dsimp only
      refine Keeps.bind p (Keeps.emit p _ (hcall _)) (fun _ => ?_)
      cases w.Create _ with
      | error err => exact Keeps.logFatal p w err
      | ok message => exact Keeps.Println p _ hout

theorem tailLoop_keeps (p : Event → Bool) (w : World) (conn : Nat)
    (hrecv : p (.recv conn) = false) (hout : ∀ t, p (.stdout t) = false) (fuel : Nat) :
    ∀ tailc : TailStream, Keeps p (tailLoop w conn fuel tailc) := by
  induction fuel with
  | zero => intro tailc; exact Keeps.stop p _
  | succ n ih =>
    intro tailc
    unfold tailLoop
    refine Keeps.bind p ?_ (fun r => ?_)
    · unfold Recv
      refine Keeps.bind p (Keeps.emit p _ hrecv) (fun _ => ?_)
      cases tailc.lines with
      | nil => exact Keeps.pure p _
      | cons line rest => exact Keeps.pure p _
    · obtain ⟨line, t⟩ := r
      cases line with
      | error err =>
        cases err with
        | EOF => exact Keeps.pure p _
        | ErrGoTimeout => exact Keeps.logFatal p w _
        | other text => exact Keeps.logFatal p w _
      | ok text => exact Keeps.bind p (Keeps.emit p _ (hout _)) (fun _ => ih t)

theorem ActionTail_keeps (p : Event → Bool) (w : World) (ctx : Context) (client : ProgramClient)
    (hcall : ∀ r, p (.call client.conn r) = false) (hrecv : p (.recv client.conn) = false)
    (hout : ∀ t, p (.stdout t) = false) :
    Keeps p (ActionTail w ctx client) := by
  unfold ActionTail
  refine Keeps.bind p (Keeps.emit p _ (hcall _)) (fun _ => ?_)
  cases w.Tail _ with
  | error err => exact Keeps.logFatal p w err
  | ok tailc => exact tailLoop_keeps p w _ hrecv hout _ tailc

theorem grpcDial_keeps (p : Event → Bool) (hdial : ∀ n a c, p (.grpcDial n a c) = false)
    (w : World) (network addr : String) : Keeps p (grpcDial w network addr) := by
  intro s
  unfold grpcDial
  cases w.grpcDialErr s.dials <;> simp [Res.sys, List.filter_append, hdial]

theorem Errorf_keeps {α : Type} (p : Event → Bool) (hout : ∀ t, p (.stdout t) = false)
    (w : World) (err : GoError) : Keeps p (Errorf w err : Go α) :=
  Keeps.bind p (Keeps.emit p _ (hout _)) (fun _ => Keeps.stop p _)

theorem ActionStart_keeps (p : Event → Bool) (hdial : ∀ n a c, p (.grpcDial n a c) = false)
    (hclose : ∀ c, p (.connClose c) = false) (hcall : ∀ c r, p (.call c r) = false)
    (hout : ∀ t, p (.stdout t) = false) (w : World) (ctx : Context) :
    Keeps p (ActionStart w ctx) := by
  unfold ActionStart connect
  refine Keeps.bind p (grpcDial_keeps p hdial w _ _) (fun r => ?_)
  cases r with
  | error err => exact Keeps.logFatal p w err
  | ok conn =>
    refine Keeps.withDefer p (Keeps.emit p _ (hclose _)) ?_
    refine Keeps.bind p (Keeps.emit p _ (hcall _ _)) (fun _ => ?_)
    cases w.Start _ with
    | error err => exact Errorf_keeps p hout w err
    | ok message => exact Keeps.Println p _ hout

theorem ActionStop_keeps (p : Event → Bool) (hdial : ∀ n a c, p (.grpcDial n a c) = false)
    (hclose : ∀ c, p (.connClose c) = false) (hcall : ∀ c r, p (.call c r) = false)
    (hout : ∀ t, p (.stdout t) = false) (w : World) (ctx : Context) :
    Keeps p (ActionStop w ctx) := by
  unfold ActionStop connect
  refine Keeps.bind p (grpcDial_keeps p hdial w _ _) (fun r => ?_)
  cases r with
  | error err => exact Keeps.logFatal p w err
  | ok conn =>
    refine Keeps.withDefer p (Keeps.emit p _ (hclose _)) ?_
    refine Keeps.bind p (Keeps.emit p _ (hcall _ _)) (fun _ => ?_)
    cases w.Stop _ with
    | error err => exact Errorf_keeps p hout w err
    | ok message => exact Keeps.Println p _ hout

theorem filter_bind_of_keeps {α β : Type} (p : Event → Bool) (m : Go α) (f : α → Go β)
    (hf : ∀ a, Keeps p (f a)) (s : Sys) :
    ((m >>= f) s).sys.trace.filter p = (m s).sys.trace.filter p := by
  rw [bind_apply]
  cases hr : m s with
  | ok a s1 => simpa [Res.sys] using hf a s1
  | halt h s1 => rfl

theorem Invoke_keeps (p : Event → Bool) (pc : ProgramClient) (gc : GoSuvClient) (ctx : Context)
    (f : Handler)
    (h1 : ∀ g, f = .ofCtx g → Keeps p (g ctx))
    (h2 : ∀ g, f = .ofGoSuv g → Keeps p (g gc))
    (h3 : ∀ g, f = .ofCtxGoSuv g → Keeps p (g ctx gc))
    (h4 : ∀ g, f = .ofCtxProgram g → Keeps p (g ctx pc)) :
    Keeps p (Invoke pc gc ctx f) := by
  cases f with
  | ofCtx g => exact h1 g rfl
  | ofGoSuv g => exact h2 g rfl
  | ofCtxGoSuv g => exact h3 g rfl
  | ofCtxProgram g => exact h4 g rfl

/-- The process starts of `testConnection`: none with a listener, otherwise
the one spawn of `os.Args[0] serv` under the 500ms timer. -/
theorem testConnection_execs (w : World) (network address : String) (s : Sys) :
    execs (testConnection w network address s).sys.trace
      = execs s.trace ++
        (if w.DialTimeout network address 100 = none then []
         else [.spawn (execCommand w.Args0 ["serv"]) 500]) := by
  cases hd : w.DialTimeout network address 100 with
  | none =>
    rw [testConnection_reachable w network address s hd]
    simp [execs, Res.sys, List.filter_append, Event.isExec]
  | some e =>
    by_cases hr : w.GoTimeoutRun 500 (execCommand w.Args0 ["serv"]) = some GoError.ErrGoTimeout
    · simp [testConnection, netDialTimeout, GoTimeoutFunc, hd, hr, execs, Res.sys,
        List.filter_append, Event.isExec]
    · simp [testConnection, netDialTimeout, GoTimeoutFunc, hd, hr, execs, Res.sys,
        List.filter_append, Event.isExec]

/-- What `wrap` does after `testConnection` starts no process, when the
handler starts none. -/
theorem wrap_execs (w : World) (f : Handler) (ctx : Context) (s : Sys)
    (hf : ∀ pc gc, Keeps Event.isExec (Invoke pc gc ctx f)) :
    execs (wrap w f ctx s).sys.trace
      = execs s.trace ++
        (if w.DialTimeout "unix" (GOSUV_SOCK_PATH w) 100 = none then []
         else [.spawn (execCommand w.Args0 ["serv"]) 500]) := by
  rw [← testConnection_execs]
  unfold wrap execs
  apply filter_bind_of_keeps
  intro r
  refine Keeps.bind _ ?_ (fun _ => ?_)
  · cases r with
    | none => exact Keeps.pure _ _
    | some err => exact Keeps.logFatal _ w err
  · unfold connect
    refine Keeps.bind _ (grpcDial_keeps _ (fun _ _ _ => rfl) w _ _) (fun c => ?_)
    cases c with
    | error err => exact Keeps.logFatal _ w err
    | ok conn => exact Keeps.withDefer _ (Keeps.emit _ _ rfl) (hf _ _)

theorem countExec_eq_length (tr : List Event) : countExec tr = (execs tr).length := by
  simp [countExec, execs, List.countP_eq_length_filter]

/-- Every handler registered through `wrap` starts no process itself. -/
theorem wrapped_handler_keeps_exec (w : World) (ctx : Context) (c : Command)
    (hc : c ∈ builtinCommands w) (hname : c.Name ∈ wrappedNames) :
    ∃ f, c.Action = wrap w f ∧ ∀ pc gc, Keeps Event.isExec (Invoke pc gc ctx f) := by
  simp only [builtinCommands, List.mem_cons, List.mem_singleton, List.not_mem_nil, or_false] at hc
  rcases hc with rfl | rfl | rfl | rfl | rfl | rfl | rfl | rfl
  · exact ⟨_, rfl, fun pc gc => ActionVersion_keeps _ w ctx gc (fun _ => rfl) (fun _ => rfl)⟩
  · exact ⟨_, rfl, fun pc gc => ActionStatus_keeps _ w gc (fun _ => rfl) (fun _ => rfl)⟩
  · exact ⟨_, rfl, fun pc gc => ActionAdd_keeps _ w ctx gc (fun _ => rfl) (fun _ => rfl)⟩
  · exact ⟨_, rfl, fun pc gc =>
      ActionStart_keeps _ (fun _ _ _ => rfl) (fun _ => rfl) (fun _ _ => rfl) (fun _ => rfl) w ctx⟩
  · exact ⟨_, rfl, fun pc gc =>
      ActionStop_keeps _ (fun _ _ _ => rfl) (fun _ => rfl) (fun _ _ => rfl) (fun _ => rfl) w ctx⟩
  · exact ⟨_, rfl, fun pc gc =>
      ActionTail_keeps _ w ctx pc (fun _ => rfl) rfl (fun _ => rfl)⟩
  · exact absurd hname (show "shutdown" ∉ wrappedNames by decide)
  · exact absurd hname (show "serv" ∉ wrappedNames by decide)

/-- C3: one invocation of a command registered through `wrap` (version,
status, add, start, stop, tail) starts exactly one process, the daemon spawn
`os.Args[0] serv`, when the reachability probe fails, and none when the probe
succeeds, however the invocation ends. -/
theorem wrapped_command_spawn_count (w : World) (ctx : Context) (c : Command)
    (hc : c ∈ builtinCommands w) (hname : c.Name ∈ wrappedNames) :
    execs (c.Action ctx Sys.init).sys.trace
        = (if w.DialTimeout "unix" (GOSUV_SOCK_PATH w) 100 = none then []
           else [.spawn (execCommand w.Args0 ["serv"]) 500]) ∧
      countExec (c.Action ctx Sys.init).sys.trace
        = (if w.DialTimeout "unix" (GOSUV_SOCK_PATH w) 100 = none then 0 else 1) := by
  obtain ⟨f, hact, hkeep⟩ := wrapped_handler_keeps_exec w ctx c hc hname
  have h := wrap_execs w f ctx Sys.init hkeep
  rw [hact, countExec_eq_length, h]
  constructor
  · simp [execs, Sys.init]
  · split <;> simp [execs, Sys.init]

/-- The status command spawns once without a listener and never with one. -/
theorem wrapped_command_spawn_count_witness :
    countExec ((wrap coldWorld (.ofGoSuv (ActionStatus coldWorld))) (exampleCtx []) Sys.init).sys.trace = 1 ∧
    countExec ((wrap exampleWorld (.ofGoSuv (ActionStatus exampleWorld))) (exampleCtx []) Sys.init).sys.trace = 0 :=
  ⟨(wrapped_command_spawn_count coldWorld (exampleCtx [])
      { Name := "status", Aliases := ["st"], Usage := "show program status",
        Action := wrap coldWorld (.ofGoSuv (ActionStatus coldWorld)) }
      (List.Mem.tail _ (List.Mem.head _)) (by decide)).2,
   (wrapped_command_spawn_count exampleWorld (exampleCtx [])
      { Name := "status", Aliases := ["st"], Usage := "show program status",
        Action := wrap exampleWorld (.ofGoSuv (ActionStatus exampleWorld)) }
      (List.Mem.tail _ (List.Mem.head _)) (by decide)).2⟩

/-! ## Connections -/

theorem testConnection_dials (w : World) (network address : String) (s : Sys) :
    (testConnection w network address s).sys.dials = s.dials := by
  cases hd : w.DialTimeout network address 100 with
  | none => rw [testConnection_reachable w network address s hd]; rfl
  | some e =>
    by_cases hr : w.GoTimeoutRun 500 (execCommand w.Args0 ["serv"]) = some GoError.ErrGoTimeout
    · simp [testConnection, netDialTimeout, GoTimeoutFunc, hd, hr, Res.sys]
    · simp [testConnection, netDialTimeout, GoTimeoutFunc, hd, hr, Res.sys]

theorem testConnection_keeps (p : Event → Bool) (hdial : ∀ n a t, p (.dial n a t) = false)
    (hclose : p .probeClose = false) (hspawn : ∀ c t, p (.spawn c t) = false)
    (hout : ∀ t, p (.stdout t) = false) (w : World) (network address : String) :
    Keeps p (testConnection w network address) := by
  intro s
  cases hd : w.DialTimeout network address 100 with
  | none =>
    rw [testConnection_reachable w network address s hd]
    simp [Res.sys, List.filter_append, hdial, hclose]
  | some e =>
    by_cases hr : w.GoTimeoutRun 500 (execCommand w.Args0 ["serv"]) = some GoError.ErrGoTimeout
    · simp [testConnection, netDialTimeout, GoTimeoutFunc, hd, hr, Res.sys, List.filter_append,
        hdial, hspawn, hout]
    · simp [testConnection, netDialTimeout, GoTimeoutFunc, hd, hr, Res.sys, List.filter_append,
        hdial, hspawn]

/-- After a successful bootstrap, `wrap` adds to the trace its one `grpcDial`
and whatever the handler adds. -/
theorem wrap_filter (p : Event → Bool) (w : World) (f : Handler) (ctx : Context) (s s1 : Sys)
    (hboot : testConnection w "unix" (GOSUV_SOCK_PATH w) s = .ok none s1)
    (hclose : ∀ c, p (.connClose c) = false)
    (hf : Keeps p (Invoke { conn := s1.dials } { conn := s1.dials } ctx f)) :
    (wrap w f ctx s).sys.trace.filter p
      = (s1.trace ++ [Event.grpcDial "unix" (GOSUV_SOCK_PATH w) s1.dials]).filter p := by
  simp only [wrap, bind_apply, hboot, pure_apply, connect, grpcDial]
  cases w.grpcDialErr s1.dials with
  | some err => rfl
  | none => exact Keeps.withDefer p (Keeps.emit p _ (hclose _)) hf _

/-- The handlers that take an injected client make no `grpcDial` call and
issue their remote calls on the connection of that client. -/
theorem injected_handler_keeps (w : World) (ctx : Context) (c : Command)
    (hc : c ∈ builtinCommands w) (hname : c.Name ∈ injectedNames) :
    ∃ f, c.Action = wrap w f ∧ ∀ conn,
      Keeps Event.isGrpcDial (Invoke { conn := conn } { conn := conn } ctx f) ∧
      Keeps (Event.offConn conn) (Invoke { conn := conn } { conn := conn } ctx f) := by
  have hcall : ∀ (conn : Nat) (r : RpcCall), Event.offConn conn (.call conn r) = false := by
    intro conn r; simp [Event.offConn, Event.rpcConn]
  have hrecv : ∀ conn : Nat, Event.offConn conn (.recv conn) = false := by
    intro conn; simp [Event.offConn, Event.rpcConn]
  simp only [builtinCommands, List.mem_cons, List.mem_singleton, List.not_mem_nil, or_false] at hc
  rcases hc with rfl | rfl | rfl | rfl | rfl | rfl | rfl | rfl
  · exact ⟨_, rfl, fun conn =>
      ⟨ActionVersion_keeps _ w ctx _ (fun _ => rfl) (fun _ => rfl),
       ActionVersion_keeps _ w ctx _ (hcall conn) (fun _ => rfl)⟩⟩
  · exact ⟨_, rfl, fun conn =>
      ⟨ActionStatus_keeps _ w _ (fun _ => rfl) (fun _ => rfl),
       ActionStatus_keeps _ w _ (hcall conn) (fun _ => rfl)⟩⟩
  · exact ⟨_, rfl, fun conn =>
      ⟨ActionAdd_keeps _ w ctx _ (fun _ => rfl) (fun _ => rfl),
       ActionAdd_keeps _ w ctx _ (hcall conn) (fun _ => rfl)⟩⟩
  · exact absurd hname (show "start" ∉ injectedNames by decide)
  · exact absurd hname (show "stop" ∉ injectedNames by decide)
  · exact ⟨_, rfl, fun conn =>
      ⟨ActionTail_keeps _ w ctx _ (fun _ => rfl) rfl (fun _ => rfl),
       ActionTail_keeps _ w ctx _ (hcall conn) (hrecv conn) (fun _ => rfl)⟩⟩
  · exact absurd hname (show "shutdown" ∉ injectedNames by decide)
  · exact absurd hname (show "serv" ∉ injectedNames by decide)

/-- For version, status, add and tail, an invocation whose bootstrap succeeds
calls `grpcDial` exactly once, and every remote call and receive goes through
that connection, number 0. -/
theorem injected_command_single_connection (w : World) (ctx : Context) (c : Command)
    (hc : c ∈ builtinCommands w) (hname : c.Name ∈ injectedNames)
    (hboot : (testConnection w "unix" (GOSUV_SOCK_PATH w) Sys.init).value = some none) :
    countDial (c.Action ctx Sys.init).sys.trace = 1 ∧
      ∀ k ∈ rpcConns (c.Action ctx Sys.init).sys.trace, k = 0 := by
  obtain ⟨f, hact, hkeep⟩ := injected_handler_keeps w ctx c hc hname
  have hd := testConnection_dials w "unix" (GOSUV_SOCK_PATH w) Sys.init
  have hk1 := testConnection_keeps Event.isGrpcDial (fun _ _ _ => rfl) rfl (fun _ _ => rfl)
    (fun _ => rfl) w "unix" (GOSUV_SOCK_PATH w) Sys.init
  have hk2 := testConnection_keeps (Event.offConn 0) (fun _ _ _ => rfl) rfl (fun _ _ => rfl)
    (fun _ => rfl) w "unix" (GOSUV_SOCK_PATH w) Sys.init
  cases hr : testConnection w "unix" (GOSUV_SOCK_PATH w) Sys.init with
  | halt h s1 => rw [hr] at hboot; simp [Res.value] at hboot
  | ok a s1 =>
    rw [hr] at hboot hd hk1 hk2
    simp only [Res.value, Option.some.injEq] at hboot
    subst hboot
    simp only [Res.sys, Sys.init] at hd hk1 hk2
    have h1 := wrap_filter Event.isGrpcDial w f ctx Sys.init s1 hr (fun _ => rfl)
      (hkeep s1.dials).1
    have h2 := wrap_filter (Event.offConn 0) w f ctx Sys.init s1 hr (fun _ => rfl)
      (by rw [hd]; exact (hkeep 0).2)
    rw [hact]
    constructor
    · rw [countDial, List.countP_eq_length_filter, h1, List.filter_append, hk1]
      simp [Event.isGrpcDial]
    · intro k hk
      rw [List.filter_append, hk2] at h2
      simp only [List.filter_nil, List.nil_append] at h2
      have h3 : List.filter (Event.offConn 0) [Event.grpcDial "unix" (GOSUV_SOCK_PATH w) s1.dials]
          = [] := by simp [Event.offConn, Event.rpcConn]
      rw [h3] at h2
      simp only [rpcConns, List.mem_filterMap] at hk
      obtain ⟨e, he, hek⟩ := hk
      by_contra hne
      have : e ∈ List.filter (Event.offConn 0) (wrap w f ctx Sys.init).sys.trace := by
        rw [List.mem_filter]
        refine ⟨he, ?_⟩
        simp [Event.offConn, hek, hne]
      rw [h2] at this
      exact absurd this (List.not_mem_nil _)

/-- Whenever the bootstrap and the dial of `wrap` succeed, the invocations of
`start` and `stop` call `grpcDial` a second time in the handler. -/
theorem start_stop_dial_twice (w : World) (ctx : Context)
    (hboot : (testConnection w "unix" (GOSUV_SOCK_PATH w) Sys.init).value = some none)
    (hdial : w.grpcDialErr 0 = none) :
    countDial (wrap w (.ofCtx (ActionStart w)) ctx Sys.init).sys.trace = 2 ∧
      countDial (wrap w (.ofCtx (ActionStop w)) ctx Sys.init).sys.trace = 2 := by
  have hd := testConnection_dials w "unix" (GOSUV_SOCK_PATH w) Sys.init
  have hk1 := testConnection_keeps Event.isGrpcDial (fun _ _ _ => rfl) rfl (fun _ _ => rfl)
    (fun _ => rfl) w "unix" (GOSUV_SOCK_PATH w) Sys.init
  cases hr : testConnection w "unix" (GOSUV_SOCK_PATH w) Sys.init with
  | halt h s1 => rw [hr] at hboot; simp [Res.value] at hboot
  | ok a s1 =>
    rw [hr] at hboot hd hk1
    simp only [Res.value, Option.some.injEq] at hboot
    subst hboot
    simp only [Res.sys, Sys.init] at hd hk1
    have hc : List.countP Event.isGrpcDial s1.trace = 0 := by
      rw [List.countP_eq_length_filter, hk1]; rfl
    constructor
    · simp only [wrap, bind_apply, hr, pure_apply, connect, grpcDial, hd, hdial, Invoke,
        withDefer, ActionStart, emit_apply, Errorf, Println_apply, logFatal_apply, stop_apply]
      cases w.grpcDialErr 1 <;> cases w.Start (First ctx.Args) <;>
        simp [countDial, Res.sys, withDefer, List.countP_append, List.countP_cons, hc,
          Event.isGrpcDial]
    · simp only [wrap, bind_apply, hr, pure_apply, connect, grpcDial, hd, hdial, Invoke,
        withDefer, ActionStop, emit_apply, Errorf, Println_apply, logFatal_apply, stop_apply]
      cases w.grpcDialErr 1 <;> cases w.Stop (First ctx.Args) <;>
        simp [countDial, Res.sys, withDefer, List.countP_append, List.countP_cons, hc,
          Event.isGrpcDial]

/-- C4: the invocation `gosuv start web` against a listening daemon calls
`grpcDial` twice, once in `wrap` and once more in `ActionStart`, and the
`Start` call goes through the second connection, not the one `wrap` opened;
`gosuv stop web` does the same. -/
theorem start_invocation_dials_twice :
    (wrap exampleWorld (.ofCtx (ActionStart exampleWorld)) (exampleCtx ["web"]) Sys.init).sys.trace
        = [.dial "unix" "/home/u/.gosuv/gosuv.sock" 100, .probeClose,
           .grpcDial "unix" "/home/u/.gosuv/gosuv.sock" 0,
           .grpcDial "unix" "/home/u/.gosuv/gosuv.sock" 1,
           .call 1 (.Start "web"), .stdout "web started\n",
           .connClose 1, .connClose 0] ∧
      countDial (wrap exampleWorld (.ofCtx (ActionStart exampleWorld)) (exampleCtx ["web"])
        Sys.init).sys.trace = 2 ∧
      rpcConns (wrap exampleWorld (.ofCtx (ActionStart exampleWorld)) (exampleCtx ["web"])
        Sys.init).sys.trace = [1] ∧
      countDial (wrap exampleWorld (.ofCtx (ActionStop exampleWorld)) (exampleCtx ["web"])
        Sys.init).sys.trace = 2 ∧
      rpcConns (wrap exampleWorld (.ofCtx (ActionStop exampleWorld)) (exampleCtx ["web"])
        Sys.init).sys.trace = [1] := by
  refine ⟨?_, ?_, ?_, ?_, ?_⟩ <;> decide

/-! ## Command table and plugins -/

theorem appendPlugins_commands (w : World) (finfos : List FileInfo) :
    ∀ app : App, (appendPlugins w app finfos).Commands
      = app.Commands ++ (finfos.filter (fun finfo => finfo.IsDir)).map
          (fun finfo => pluginCommand w finfo.Name) := by
  induction finfos with
  | nil => intro app; simp [appendPlugins]
  | cons finfo rest ih =>
    intro app
    cases hdir : finfo.IsDir with
    | false => simp [appendPlugins, hdir, ih]
    | true => simp [appendPlugins, hdir, ih]

/-- C5: when the plugin root is listed, the command table of `initCli` is the
built-in commands followed by one plugin command per directory entry, named
after the entry, in listing order, and nothing for the other entries; when
the plugin root cannot be read, the table is the built-in commands alone. -/
theorem initCli_commands (w : World) :
    (initCli w).Commands =
      (match w.ReadDir (CMDPLUGIN_DIR w) with
        | .ok finfos =>
          builtinCommands w ++ (finfos.filter (fun finfo => finfo.IsDir)).map
            (fun finfo => pluginCommand w finfo.Name)
        | .error _ => builtinCommands w) ∧
      (initCli w).Commands.map (fun c => c.Name) =
        (match w.ReadDir (CMDPLUGIN_DIR w) with
          | .ok finfos =>
            (builtinCommands w).map (fun c => c.Name) ++
              (finfos.filter (fun finfo => finfo.IsDir)).map (fun finfo => finfo.Name)
          | .error _ => (builtinCommands w).map (fun c => c.Name)) := by
  unfold initCli
  cases w.ReadDir (CMDPLUGIN_DIR w) with
  | error err => exact ⟨rfl, rfl⟩
  | ok finfos =>
    constructor
    · exact appendPlugins_commands w finfos _
    · show List.map (fun c => c.Name) (appendPlugins w _ finfos).Commands = _
      rw [appendPlugins_commands]
      simp [pluginCommand, Function.comp_def]

/-- The command names of the example world: the built-in ones, then `bar`
and `foo`; the regular file `README` adds none. -/
theorem initCli_example_names :
    (initCli exampleWorld).Commands.map (fun c => c.Name)
      = ["version", "status", "add", "start", "stop", "tail", "shutdown", "serv", "bar", "foo"] := by
  decide

/-- C6: the action of the plugin command `name` runs one external process
and returns: the executable is `run` inside the plugin directory
`CMDPLUGIN_DIR/name`, the arguments are those of the invocation, the working
directory is the plugin directory, the three standard streams are inherited,
and the environment is the inherited one followed by `GOSUV_SERVER_ADDR`,
`GOSUV_PLUGIN_NAME` and `GOSUV_PROGRAM`. -/
theorem newPluginAction_process (w : World) (ctx : Context) (name : String) (s : Sys) :
    newPluginAction w name ctx s
      = .ok () { s with trace := s.trace ++ [.run
          { Path := w.Join [w.Join [CMDPLUGIN_DIR w, name], "run"]
            Args := w.Join [w.Join [CMDPLUGIN_DIR w, name], "run"] :: ctx.Args
            Dir := w.Join [CMDPLUGIN_DIR w, name]
            Env := w.Environ ++
              ["GOSUV_SERVER_ADDR=" ++ ctx.GlobalString "addr",
               "GOSUV_PLUGIN_NAME=" ++ name,
               "GOSUV_PROGRAM=" ++ (w.Abs w.Args0).1]
            Stdout := true
            Stderr := true
            Stdin := true }] } := by
  rfl

/-- The plugin `foo` of the example world, invoked with two arguments. -/
theorem newPluginAction_example :
    (newPluginAction exampleWorld "foo" (exampleCtx ["-v", "all"]) Sys.init).sys.trace
      = [.run
          { Path := "/home/u/.gosuv/cmdplugin/foo/run"
            Args := ["/home/u/.gosuv/cmdplugin/foo/run", "-v", "all"]
            Dir := "/home/u/.gosuv/cmdplugin/foo"
            Env := ["HOME=/home/u", "PATH=/usr/bin", "GOSUV_SERVER_ADDR=127.0.0.1:54637",
              "GOSUV_PLUGIN_NAME=foo", "GOSUV_PROGRAM=/usr/local/bin/gosuv"]
            Stdout := true
            Stderr := true
            Stdin := true }] := by
  decide

/-! ## The add command -/

theorem Tail_eq_tail (args : List String) : Tail args = args.tail := by
  match args with
  | [] => rfl
  | [a] => rfl
  | a :: b :: rest => simp [Tail]

/-- A name with a slash resolves to itself, whether absolute or not. -/
theorem LookPath_of_slash (w : World) (file cmdPath : String)
    (hslash : containsSlash file = true) (hlook : LookPath w file = .ok cmdPath) :
    cmdPath = file := by
  unfold LookPath at hlook
  rw [if_pos hslash] at hlook
  split at hlook
  · exact (Except.ok.inj hlook).symm
  · cases hlook

/-- C7, as the claim states it, fails: for `add --name worker --env KEY=VAL --
./server.py` with `./server.py` executable, the command submitted starts with
`./server.py`, which is not an absolute path. -/
theorem ActionAdd_path_not_absolute :
    rpcCalls (ActionAdd exampleWorld addCtx { conn := 0 } Sys.init).sys.trace
        = [.Create { Name := "worker", Directory := "/srv/app",
                     Command := ["./server.py"], Environ := ["KEY=VAL"] }] ∧
      LookPath exampleWorld "./server.py" = .ok "./server.py" ∧
      IsAbs "./server.py" = false :=
  ⟨by decide, rfl, by decide⟩

/-- A name without a slash resolves, if at all, to an absolute path. -/
theorem LookPath_of_bare (w : World) (file cmdPath : String)
    (hbare : containsSlash file = false) (hlook : LookPath w file = .ok cmdPath) :
    IsAbs cmdPath = true := by
  unfold LookPath at hlook
  rw [hbare] at hlook
  exact w.LookPathSearch_abs file cmdPath hlook

/-- C7, amended: with at least one positional argument whose first one
`exec.LookPath` resolves to `cmdPath`, `ActionAdd` submits one `Create` request
with the value of `--name`, the working directory, `cmdPath` followed by the
remaining arguments, and the `--env` entries; on a reply it prints the message
and returns, on an error it halts.  `cmdPath` is the first argument itself,
absolute or not, when that contains a slash, and an absolute path found
through `$PATH` when it does not. -/
theorem ActionAdd_request (w : World) (ctx : Context) (client : GoSuvClient) (s : Sys)
    (cmdPath : String) (hargs : ctx.Args ≠ [])
    (hlook : LookPath w (First ctx.Args) = .ok cmdPath) :
    ActionAdd w ctx client s =
        (match w.Create
            { Name := ctx.FlagString "name", Directory := w.Getwd.1,
              Command := cmdPath :: ctx.Args.tail, Environ := ctx.FlagStringSlice "env" } with
          | .ok message =>
            .ok () { s with trace := s.trace ++
              [.call client.conn (.Create
                { Name := ctx.FlagString "name", Directory := w.Getwd.1,
                  Command := cmdPath :: ctx.Args.tail, Environ := ctx.FlagStringSlice "env" }),
               .stdout (message ++ "\n")] }
          | .error err =>
            .halt (.fatal (err.Error w)) { s with trace := s.trace ++
              [.call client.conn (.Create
                { Name := ctx.FlagString "name", Directory := w.Getwd.1,
                  Command := cmdPath :: ctx.Args.tail,
                  Environ := ctx.FlagStringSlice "env" })] }) ∧
      (containsSlash (First ctx.Args) = true → cmdPath = First ctx.Args) ∧
      (containsSlash (First ctx.Args) = false →
        IsAbs cmdPath = true ∧ w.LookPathSearch (First ctx.Args) = .ok cmdPath) := by
  refine ⟨?_, fun hslash => LookPath_of_slash w _ _ hslash hlook,
    fun hbare => ⟨LookPath_of_bare w _ _ hbare hlook, ?_⟩⟩
  · obtain ⟨a, rest, hcons⟩ := List.exists_cons_of_ne_nil hargs
    have hlen : ¬ ctx.Args.length < 1 := by simp [hcons]
    simp only [ActionAdd, bind_apply, hlook, Tail_eq_tail, if_neg hlen]
    rw [hcons]
    by_cases hname : ctx.FlagString "name" = ""
    · simp only [hname, if_true, pure_apply, List.tail_cons, List.singleton_append, emit_apply]
      cases w.Create _ <;> simp
    · simp only [hname, if_false, pure_apply, List.tail_cons, List.singleton_append, emit_apply]
      cases w.Create _ <;> simp
  · unfold LookPath at hlook
    rw [hbare] at hlook
    exact hlook

/-- The requests of `add --name worker --env KEY=VAL -- ./server.py` and of
`add --name nap sleep 10` in the example world: the path with a slash is sent
as it is, the bare name as the absolute path found through `$PATH`. -/
theorem ActionAdd_request_witness :
    rpcCalls (ActionAdd exampleWorld addCtx { conn := 0 } Sys.init).sys.trace
        = [.Create { Name := "worker", Directory := "/srv/app",
                     Command := ["./server.py"], Environ := ["KEY=VAL"] }] ∧
      outputs (ActionAdd exampleWorld addCtx { conn := 0 } Sys.init).sys.trace
        = ["program worker created\n"] ∧
      rpcCalls (ActionAdd exampleWorld sleepCtx { conn := 0 } Sys.init).sys.trace
        = [.Create { Name := "nap", Directory := "/srv/app",
                     Command := ["/usr/bin/sleep", "10"], Environ := [] }] ∧
      IsAbs "/usr/bin/sleep" = true := by
  have h1 := ActionAdd_request exampleWorld addCtx { conn := 0 } Sys.init "./server.py"
    (by decide) rfl
  have h2 := ActionAdd_request exampleWorld sleepCtx { conn := 0 } Sys.init "/usr/bin/sleep"
    (by decide) rfl
  refine ⟨?_, ?_, ?_, (h2.2.2 (by decide)).1⟩
  · rw [h1.1]; decide
  · rw [h1.1]; decide
  · rw [h2.1]; decide

/-- With no positional argument and a non-empty `--name`, `ActionAdd` stops
with the report `need at least one args` and sends nothing. -/
theorem ActionAdd_no_args_named (w : World) (ctx : Context) (client : GoSuvClient) (s : Sys)
    (hargs : ctx.Args = []) (hname : ctx.FlagString "name" ≠ "") :
    ActionAdd w ctx client s = .halt (.fatal "need at least one args") s := by
  simp [ActionAdd, hargs, hname]

/-- With no positional argument and no `--name`, `ActionAdd` panics on the
indexing `ctx.Args()[0]` and sends nothing. -/
theorem ActionAdd_no_args_unnamed (w : World) (ctx : Context) (client : GoSuvClient) (s : Sys)
    (hargs : ctx.Args = []) (hname : ctx.FlagString "name" = "") :
    ActionAdd w ctx client s = .halt (.panic "index out of range") s := by
  simp [ActionAdd, hargs, hname]

/-- C10: the invocation `gosuv add` with no `--name` flag and no positional
argument does not end in the report `need at least one args`: it panics on an
index out of range, before the length check, with nothing sent. -/
theorem ActionAdd_bare_invocation_panics :
    (ActionAdd exampleWorld (exampleCtx []) { conn := 0 } Sys.init).halted
        = some (.panic "index out of range") ∧
      (ActionAdd exampleWorld (exampleCtx []) { conn := 0 } Sys.init).halted
        ≠ some (.fatal "need at least one args") ∧
      (ActionAdd exampleWorld (exampleCtx []) { conn := 0 } Sys.init).sys.trace = [] := by
  refine ⟨?_, ?_, ?_⟩ <;> decide

/-! ## The status command -/

theorem forRange_emit {α : Type} (mk : α → Event) (xs : List α) :
    ∀ s : Sys, forRange (fun x => emit (mk x)) xs s
      = .ok () { s with trace := s.trace ++ xs.map mk } := by
  induction xs with
  | nil => intro s; simp [forRange]
  | cons x rest ih => intro s; simp [forRange, ih]

theorem padRight_of_le (width : Nat) (text : String) (h : width ≤ text.length) :
    padRight width text = text := by
  simp [padRight, Nat.sub_eq_zero_of_le h]

/-- C8, as the claim states it, fails: the program `web` with status
`running` is printed with blanks after the name and after the status, not as
the bare `web<tab>running<tab>pid 41`. -/
theorem ActionStatus_line_is_padded :
    outputs (ActionStatus exampleWorld { conn := 0 } Sys.init).sys.trace
        = ["web       \trunning \tpid 41\n", "long-worker-name\tstopped \t\n"] ∧
      statusLine { Name := "web", Status := "running", Extra := "pid 41" }
        ≠ "web" ++ "\t" ++ "running" ++ "\t" ++ "pid 41" ++ "\n" := by
  constructor <;> decide

/-- C8, amended: on a successful `Status` response `ActionStatus` issues the
call, writes one line per program in response order and returns; each line is
the name followed by blanks up to 10 characters, a tab, the status followed by
blanks up to 8 characters, a tab, the extra text and a newline.  A name of 10
or more characters and a status of 8 or more are written without blanks. -/
theorem ActionStatus_output (w : World) (client : GoSuvClient) (s : Sys)
    (programs : List ProgramStatus) (hres : w.Status = .ok programs) :
    ActionStatus w client s
        = .ok () { s with trace := s.trace ++
            (Event.call client.conn RpcCall.Status ::
              programs.map (fun ps => Event.stdout
                (ps.Name ++ String.mk (List.replicate (10 - ps.Name.length) ' ') ++ "\t" ++
                 (ps.Status ++ String.mk (List.replicate (8 - ps.Status.length) ' ')) ++ "\t" ++
                 ps.Extra ++ "\n"))) } ∧
      (outputs (ActionStatus w client s).sys.trace).length
        = (outputs s.trace).length + programs.length ∧
      ∀ ps ∈ programs, 10 ≤ ps.Name.length → 8 ≤ ps.Status.length →
        statusLine ps = ps.Name ++ "\t" ++ ps.Status ++ "\t" ++ ps.Extra ++ "\n" := by
  have hrun : ActionStatus w client s
      = .ok () { s with trace := s.trace ++
          (Event.call client.conn RpcCall.Status ::
            programs.map (fun ps => Event.stdout (statusLine ps))) } := by
    simp [ActionStatus, hres, forRange_emit]
  refine ⟨hrun, ?_, ?_⟩
  · rw [hrun]
    simp [outputs, Res.sys, List.filterMap_append, List.filterMap_map, Function.comp_def]
  · intro ps _ h1 h2
    simp [statusLine, padRight_of_le _ _ h1, padRight_of_le _ _ h2]

/-- The two status lines of the example world. -/
theorem ActionStatus_output_witness :
    outputs (ActionStatus exampleWorld { conn := 0 } Sys.init).sys.trace
      = ["web       \trunning \tpid 41\n", "long-worker-name\tstopped \t\n"] := by
  rw [(ActionStatus_output exampleWorld { conn := 0 } Sys.init
    [{ Name := "web", Status := "running", Extra := "pid 41" },
     { Name := "long-worker-name", Status := "stopped", Extra := "" }] rfl).1]
  decide

/-! ## The tail command -/

theorem Recv_nil (conn : Nat) (t : TailStream) (s : Sys) (h : t.lines = []) :
    Recv conn t s = .ok (.error t.stop, t) { s with trace := s.trace ++ [.recv conn] } := by
  simp [Recv, h]

theorem Recv_cons (conn : Nat) (t : TailStream) (s : Sys) (line : String) (rest : List String)
    (h : t.lines = line :: rest) :
    Recv conn t s
      = .ok (.ok line, { t with lines := rest }) { s with trace := s.trace ++ [.recv conn] } := by
  simp [Recv, h]

/-- With more fuel than lines, the receive loop writes every line in order,
then returns at `EOF` and reports any other final error. -/
theorem tailLoop_run (w : World) (conn : Nat) (stop : GoError) :
    ∀ (lines : List String) (fuel : Nat) (s : Sys), lines.length < fuel →
      tailLoop w conn fuel { lines := lines, stop := stop } s
        = if stop = GoError.EOF then
            .ok () { s with trace := s.trace ++ tailEvents conn lines }
          else
            .halt (.fatal (stop.Error w)) { s with trace := s.trace ++ tailEvents conn lines } := by
  intro lines
  induction lines with
  | nil =>
    intro fuel s hfuel
    obtain ⟨n, rfl⟩ := Nat.exists_eq_succ_of_ne_zero (Nat.ne_of_gt hfuel)
    rw [tailLoop, bind_apply, Recv_nil conn { lines := [], stop := stop } s rfl]
    cases stop <;> simp [tailEvents]
  | cons line rest ih =>
    intro fuel s hfuel
    obtain ⟨n, rfl⟩ := Nat.exists_eq_succ_of_ne_zero (Nat.ne_of_gt (Nat.zero_lt_of_lt hfuel))
    have hn : rest.length < n := by simpa using hfuel
    rw [tailLoop, bind_apply, Recv_cons conn { lines := line :: rest, stop := stop } s line rest rfl]
    simp only [bind_apply, emit_apply, ih n _ hn]
    split <;> simp [tailEvents, List.flatMap_cons]

theorem outputs_tailEvents (conn : Nat) (lines : List String) :
    outputs (tailEvents conn lines) = lines := by
  induction lines with
  | nil => rfl
  | cons line rest ih =>
    simp only [tailEvents, List.flatMap_cons, List.append_assoc] at ih ⊢
    simpa [outputs] using ih

/-- C9: for a tail stream that delivers finitely many lines and then ends,
`ActionTail` writes exactly those lines, each once and in delivery order; it
returns when the stream ends with `io.EOF`, and when the stream ends with any
other error it stops with the fatal report of that error after the lines
delivered before it. -/
theorem ActionTail_output (w : World) (ctx : Context) (client : ProgramClient) (s : Sys)
    (tailc : TailStream)
    (hres : w.Tail { Name := First ctx.Args, Number := int32 (ctx.FlagInt "number"),
                     Follow := ctx.FlagBool "follow" } = .ok tailc) :
    outputs (ActionTail w ctx client s).sys.trace = outputs s.trace ++ tailc.lines ∧
      stdoutText (ActionTail w ctx client s).sys.trace
        = String.join (outputs s.trace ++ tailc.lines) ∧
      (ActionTail w ctx client s).halted
        = (if tailc.stop = GoError.EOF then none else some (.fatal (tailc.stop.Error w))) ∧
      (ActionTail w ctx client s).sys.trace
        = s.trace ++
            (Event.call client.conn (RpcCall.Tail
              { Name := First ctx.Args, Number := int32 (ctx.FlagInt "number"),
                Follow := ctx.FlagBool "follow" }) :: tailEvents client.conn tailc.lines) := by
  have hrun := tailLoop_run w client.conn tailc.stop tailc.lines (tailc.lines.length + 1)
    { s with trace := s.trace ++ [Event.call client.conn (RpcCall.Tail
      { Name := First ctx.Args, Number := int32 (ctx.FlagInt "number"),
        Follow := ctx.FlagBool "follow" })] } (Nat.lt_succ_self _)
  have htr : (ActionTail w ctx client s).sys.trace
      = s.trace ++
          (Event.call client.conn (RpcCall.Tail
            { Name := First ctx.Args, Number := int32 (ctx.FlagInt "number"),
              Follow := ctx.FlagBool "follow" }) :: tailEvents client.conn tailc.lines) := by
    simp only [ActionTail, bind_apply, emit_apply, hres]
    rw [hrun]
    split <;> simp [Res.sys]
  have hout : outputs (ActionTail w ctx client s).sys.trace = outputs s.trace ++ tailc.lines := by
    rw [htr]
    have := outputs_tailEvents client.conn tailc.lines
    simp only [outputs] at this ⊢
    simp [List.filterMap_append, List.filterMap_cons, this]
  refine ⟨hout, ?_, ?_, htr⟩
  · rw [stdoutText, hout]
  · simp only [ActionTail, bind_apply, emit_apply, hres]
    rw [hrun]
    split <;> simp [Res.halted]

/-- A stream that ends regularly after two lines, and one that breaks after one line. -/
theorem ActionTail_output_witness :
    outputs (ActionTail exampleWorld (exampleCtx ["web"]) { conn := 0 } Sys.init).sys.trace
        = ["a\n", "b\n"] ∧
      (ActionTail exampleWorld (exampleCtx ["web"]) { conn := 0 } Sys.init).halted = none ∧
      outputs (ActionTail lossyWorld (exampleCtx ["web"]) { conn := 0 } Sys.init).sys.trace
        = ["a\n"] ∧
      (ActionTail lossyWorld (exampleCtx ["web"]) { conn := 0 } Sys.init).halted
        = some (.fatal "rpc error: transport is closing") :=
  ⟨(ActionTail_output exampleWorld (exampleCtx ["web"]) { conn := 0 } Sys.init
      { lines := ["a\n", "b\n"], stop := .EOF } rfl).1,
   (ActionTail_output exampleWorld (exampleCtx ["web"]) { conn := 0 } Sys.init
      { lines := ["a\n", "b\n"], stop := .EOF } rfl).2.2.1,
   (ActionTail_output lossyWorld (exampleCtx ["web"]) { conn := 0 } Sys.init
      { lines := ["a\n"], stop := .other "rpc error: transport is closing" } rfl).1,
   (ActionTail_output lossyWorld (exampleCtx ["web"]) { conn := 0 } Sys.init
      { lines := ["a\n"], stop := .other "rpc error: transport is closing" } rfl).2.2.1⟩

end Gosuv
